import Mathlib

/-!
Shallow embedding of `src/pyadtpulse/__init__.py` (class `PyADTPulse`),
the session-lifecycle engine of the pyadtpulse client.

Modelling conventions:
* Python strings are `List Char`; timestamps (`time.time()`) are a `Nat`
  parameter `now` supplied at each call.
* `asyncio.locks.Event` objects are `Option Bool`: `none` when the
  attribute is still `None`, `some b` when the event exists with
  set-state `b`.
* `asyncio.Task` handles are `Bool` (present or `None`); the scheduling
  of a task body is modelled separately as a function of its per-iteration
  inputs.
* HTTP traffic is an oracle: each operation takes the outcome of the
  network interactions it performs as explicit arguments.
* Exceptions that cross the boundary of a modelled function become
  `Except`/flags; functions that the source guarantees return normally
  are total Lean functions.
-/

namespace PyAdtPulse

/-- Log severity levels of the `logging` module as used by the source
(`LOG.debug`/`LOG.info`/`LOG.warning`/`LOG.error`; `LOG.exception` logs
at error severity). `toNat` follows the stdlib numeric levels so that
"lower severity" is meaningful. -/
inductive Severity
| debug
| info
| warning
| error
deriving DecidableEq

/-- Numeric value of a severity, matching Python's `logging` constants. -/
def Severity.toNat : Severity → Nat
| .debug => 10
| .info => 20
| .warning => 30
| .error => 40

/-- `RECOVERABLE_ERRORS = [429, 500, 502, 503, 504]` (line 46 of the
source). -/
def RECOVERABLE_ERRORS : List Nat := [429, 500, 502, 503, 504]

/-- The three credential fields stored by `_init_login_info`
(`_username`, `_password`, `_fingerprint`). -/
structure Creds where
  username : List Char
  password : List Char
  fingerprint : List Char
deriving DecidableEq

/-- The mutable attributes of a `PyADTPulse` object that the verified
claims depend on.

* `session`       : `_session is not None`
* `sessionClosed` : the aiohttp session has been closed
* `authenticated` : `_authenticated` event (`none` = attribute is `None`,
                    `some b` = event exists, `is_set() = b`)
* `updatesExist`  : `_updates_exist` event, same convention
* `syncTask` / `timeoutTask` : task handle present (`is not None`)
* `syncTimestamp` : `_sync_timestamp`
* `lastTimeoutReset` : `_last_timeout_reset`
* `sessionThread` : `_session_thread is not None`
* `loopExists`    : `_loop is not None`
* `creds`         : fields set by `_init_login_info` -/
structure PulseState where
  session : Bool
  sessionClosed : Bool
  authenticated : Option Bool
  updatesExist : Option Bool
  syncTask : Bool
  timeoutTask : Bool
  syncTimestamp : Nat
  lastTimeoutReset : Nat
  sessionThread : Bool
  loopExists : Bool
  creds : Creds
deriving DecidableEq

/-- State of a freshly constructed client (`__init__`, lines 84-109,
called with `websession=None`; the optional auto-login that `__init__`
may then perform is the separate `login` operation). -/
def initialState (c : Creds) (now : Nat) : PulseState :=
  { session := false
    sessionClosed := false
    authenticated := none
    updatesExist := none
    syncTask := false
    timeoutTask := false
    syncTimestamp := 0
    lastTimeoutReset := now
    sessionThread := false
    loopExists := false
    creds := c }

/-- `is_connected` property (lines 576-593): `False` when the
`_authenticated` event is `None`, otherwise `is_set()`. The
`_attribute_lock` acquire/release pairs have no semantic effect on the
returned value and are omitted. -/
def isConnected (s : PulseState) : Bool :=
  match s.authenticated with
  | none => false
  | some b => b

/-- Outcome of the credential-submission exchange inside `async_login`:
`noResponse` = `_async_query` returned `None` or `make_soup` failed to
parse the body; `errorMarker` = the page parsed and contains the
`div id="warnMsgContents"` error panel; `okPage` = the page parsed with
no error panel. -/
inductive LoginResponse
| noResponse
| errorMarker
| okPage
deriving DecidableEq

/-- `async_login` (lines 401-455).

Control flow of the source: create a `ClientSession` if there is none;
replace `_authenticated` with a fresh (cleared) event; fetch the API
version (affects only `_api_version`, which no claim depends on);
POST the credentials with `force_login=False`; if the body failed to
parse (`soup is None`) or contains the `warnMsgContents` error panel,
leave the event cleared and return; otherwise set the event, stamp
`_last_timeout_reset`, apply the parsed page to the sites, stamp
`_sync_timestamp`, start the sync-check and keepalive tasks if their
handles are `None`, and create the `_updates_exist` event if it is
`None`. Every path returns normally (no exception), which is why this
is a total function. -/
def asyncLogin (s : PulseState) (now : Nat) (r : LoginResponse) : PulseState :=
  let s1 := if s.session then s else { s with session := true, sessionClosed := false }
  let s2 := { s1 with authenticated := some false }
  match r with
  | .noResponse => s2
  | .errorMarker => s2
  | .okPage =>
    let s3 := { s2 with authenticated := some true, lastTimeoutReset := now,
                        syncTimestamp := now }
    let s4 := if s3.syncTask then s3 else { s3 with syncTask := true }
    let s5 := if s4.timeoutTask then s4 else { s4 with timeoutTask := true }
    if (s5.updatesExist).isSome then s5 else { s5 with updatesExist := some false }

/-- `updates_exist` property (lines 543-563): `False` when the event is
`None`; test-and-clear when it exists. Returns the value and the
post-state. -/
def updatesExistProp (s : PulseState) : Bool × PulseState :=
  match s.updatesExist with
  | none => (false, s)
  | some b =>
    if b then (true, { s with updatesExist := some false })
    else (false, s)

/-- Errors raised by the modelled operations (`ValueError` /
`RuntimeError` instances in the source, identified by their message). -/
inductive PulseError
| usernameMandatory
| usernameNotEmail
| passwordMandatory
| fingerprintRequired
| clientSessionNotInitialized
| updateEventMissing
deriving DecidableEq

/-- `wait_for_update` (lines 565-574): raises `RuntimeError` when the
`_updates_exist` event is `None`; otherwise suspends until the event is
set, then clears it (the suspension itself is outside a sequential
model; the post-state after the wait returns is the event cleared). -/
def waitForUpdate (s : PulseState) : Except PulseError PulseState :=
  match s.updatesExist with
  | none => .error .updateEventMissing
  | some _ => .ok { s with updatesExist := some false }

/-- HTTP method argument of `_async_query`/`query`: the source compares
the string against `"GET"` and `"POST"`; anything else hits the
`LOG.error("Invalid request method")` branch. -/
inductive HttpMethod
| get
| post
| other
deriving DecidableEq

/-- Outcome of the single HTTP call `_async_query` issues:
`ok` = 2xx (so `raise_for_status()` passes); `httpError code` =
`ClientResponseError` with that status raised by `raise_for_status()`;
`connError` = `ClientConnectionError`. -/
inductive HttpOutcome
| ok
| httpError (code : Nat)
| connError
deriving DecidableEq

/-- Observable effects of one `_async_query` call: number of
`async_login` invocations it performed, number of times the main HTTP
request was actually issued, and the `(status, severity)` pairs logged
for HTTP error statuses (the `except ClientResponseError` branch). -/
structure QueryTrace where
  loginAttempts : Nat
  requestsIssued : Nat
  logged : List (Nat × Severity)
deriving DecidableEq

/-- Result of `_async_query`: post-state, the returned
`Optional[ClientResponse]` (`some ()` = a response object), whether a
`RuntimeError` escaped (`raised`), and the trace. -/
structure QueryResult where
  state : PulseState
  response : Option Unit
  raised : Bool
  trace : QueryTrace
deriving DecidableEq

/-- `_async_query` (lines 595-679).

Source control flow: if `force_login and not self.is_connected`, run
`await self.async_login()` — the result of that login is NOT examined;
then raise `RuntimeError` if `_session is None`; build the URL and
headers (no claim depends on them); dispatch on the method string —
a method other than GET/POST logs an error and returns `None` without
issuing a request; otherwise issue exactly one HTTP call;
`raise_for_status()` failures (`ClientResponseError`) log the status
code via `LOG.exception` (error severity, with no branch on the code)
and return `None`; `ClientConnectionError` logs (no status code) and
returns `None`; on success update the Referer header for allow-listed
URIs (no claim depends on it) and return the response. -/
def asyncQuery (s : PulseState) (now : Nat) (forceLogin : Bool)
    (method : HttpMethod) (loginResp : LoginResponse) (outcome : HttpOutcome) :
    QueryResult :=
  let didLogin := forceLogin && !(isConnected s)
  let s1 := if didLogin then asyncLogin s now loginResp else s
  let la := if didLogin then 1 else 0
  if s1.session = false then
    { state := s1, response := none, raised := true,
      trace := { loginAttempts := la, requestsIssued := 0, logged := [] } }
  else
    match method with
    | .other =>
      { state := s1, response := none, raised := false,
        trace := { loginAttempts := la, requestsIssued := 0, logged := [] } }
    | _ =>
      match outcome with
      | .ok =>
        { state := s1, response := some (), raised := false,
          trace := { loginAttempts := la, requestsIssued := 1, logged := [] } }
      | .httpError code =>
        { state := s1, response := none, raised := false,
          trace := { loginAttempts := la, requestsIssued := 1,
                     logged := [(code, Severity.error)] } }
      | .connError =>
        { state := s1, response := none, raised := false,
          trace := { loginAttempts := la, requestsIssued := 1, logged := [] } }

/-- Credentials used for concrete runs. -/
def exCreds : Creds := ⟨['a', '@', 'b', '.', 'c', 'o'], ['p', 'w'], ['f', 'p']⟩

/-- A state reached right after a successful login from a fresh client. -/
def exConnected : PulseState := asyncLogin (initialState exCreds 0) 1 LoginResponse.okPage

/-- Value of a list of decimal digits (most significant first), as
`int()` would read it — so leading zeros are allowed and ignored. -/
def digitsToNat (cs : List Char) : Nat :=
  cs.foldl (fun a c => a * 10 + (c.toNat - '0'.toNat)) 0

/-- The sync-check pattern test of the source,
`re.match(r"\d+[-]\d+[-]\d+", text)`: `re.match` anchors at the start
only, so this accepts any text whose PREFIX is digits-dash-digits-dash-
digits. Greedy `\d+` needs no backtracking here because the dash is not
a digit. -/
def digitPrefixShape (cs : List Char) : Bool :=
  let d1 := cs.takeWhile Char.isDigit
  if d1.isEmpty then false
  else
    match cs.drop d1.length with
    | '-' :: r1 =>
      let d2 := r1.takeWhile Char.isDigit
      if d2.isEmpty then false
      else
        match r1.drop d2.length with
        | '-' :: r2 => !(r2.takeWhile Char.isDigit).isEmpty
        | _ => false
    | _ => false

/-- Claim-side reading of a sync token: the whole text is exactly
`<int>-<int>-<int>`, returning the three integer field values. -/
def parseSyncToken (cs : List Char) : Option (Nat × Nat × Nat) :=
  let d1 := cs.takeWhile Char.isDigit
  if d1.isEmpty then none
  else
    match cs.drop d1.length with
    | '-' :: r1 =>
      let d2 := r1.takeWhile Char.isDigit
      if d2.isEmpty then none
      else
        match r1.drop d2.length with
        | '-' :: r2 =>
          let d3 := r2.takeWhile Char.isDigit
          if d3.isEmpty then none
          else if r2.drop d3.length = [] then
            some (digitsToNat d1, digitsToNat d2, digitsToNat d3)
          else none
        | _ => none
    | _ => none

/-- The source's update test `text.endswith("-0-0")`, i.e. the last four
characters are literally dash, zero, dash, zero. -/
def endsWithDash00 (cs : List Char) : Bool :=
  match cs.reverse with
  | '0' :: '-' :: '0' :: '-' :: _ => true
  | _ => false

/-- Inputs consumed by one iteration of `_sync_check_task`'s loop:
whether a cancellation is observed at the iteration's suspension points
(`asyncio.sleep` / the query await), the oracles for the sync-check
query (including a login outcome in case the query force-logs-in), the
response body text, the oracle for the explicit re-login taken on a
shape mismatch, and the result of `async_update`. -/
structure TickOracle where
  cancelled : Bool
  loginAtQuery : LoginResponse
  outcome : HttpOutcome
  text : List Char
  reloginResp : LoginResponse
  updateOk : Bool
deriving DecidableEq

/-- How one sync-check iteration ended: the loop continues, the task
returned through the `except asyncio.CancelledError` handler, or an
unhandled exception killed the task. -/
inductive TickOutcome
| continued
| cancelledExit
| died
deriving DecidableEq

/-- Effects of one sync-check iteration: total `async_login` invocations
(inside the query's force-login plus the explicit re-login) and
`async_update` invocations (content refreshes). -/
structure TickTrace where
  loginAttempts : Nat
  refreshes : Nat
deriving DecidableEq

/-- Result of one sync-check iteration. -/
structure TickResult where
  state : PulseState
  outcome : TickOutcome
  trace : TickTrace
deriving DecidableEq

/-- One iteration of the `while True` loop of `_sync_check_task`
(lines 495-541).

Source control flow: sleep `poll_interval` (cancellation point); call
`_async_query(ADT_SYNC_CHECK_URI, ...)` with default
`force_login=True`; `continue` if it returned `None`; read the body
text; `handle_response` (per the spec: fails only for an absent or
non-2xx response — always passes here because `raise_for_status` was
survived) would `continue` on failure; if the text does not match
`\d+[-]\d+[-]\d+`, log, `await self.async_login()` and `continue`; if
the text ends with `"-0-0"`, stamp `_sync_timestamp`, set the
`_updates_exist` event (an `AttributeError` would escape the `try`,
which only catches `CancelledError`, killing the task — `died`), run
`async_update` (its boolean result only logged) and `continue`;
otherwise stamp `_sync_timestamp` and loop. Only `CancelledError`
returns from the task. -/
def syncTick (s : PulseState) (now : Nat) (o : TickOracle) : TickResult :=
  if o.cancelled then
    { state := s, outcome := TickOutcome.cancelledExit, trace := ⟨0, 0⟩ }
  else
    let q := asyncQuery s now true HttpMethod.get o.loginAtQuery o.outcome
    if q.raised then
      { state := q.state, outcome := TickOutcome.died,
        trace := ⟨q.trace.loginAttempts, 0⟩ }
    else
      match q.response with
      | none =>
        { state := q.state, outcome := TickOutcome.continued,
          trace := ⟨q.trace.loginAttempts, 0⟩ }
      | some _ =>
        if digitPrefixShape o.text = false then
          { state := asyncLogin q.state now o.reloginResp,
            outcome := TickOutcome.continued,
            trace := ⟨q.trace.loginAttempts + 1, 0⟩ }
        else if endsWithDash00 o.text then
          match q.state.updatesExist with
          | none =>
            { state := { q.state with syncTimestamp := now },
              outcome := TickOutcome.died,
              trace := ⟨q.trace.loginAttempts, 0⟩ }
          | some _ =>
            { state :=
                { q.state with syncTimestamp := now, updatesExist := some true },
              outcome := TickOutcome.continued,
              trace := ⟨q.trace.loginAttempts, 1⟩ }
        else
          { state := { q.state with syncTimestamp := now },
            outcome := TickOutcome.continued,
            trace := ⟨q.trace.loginAttempts, 0⟩ }

/-- The token `"1-00-0"`: full `<int>-<int>-<int>` shape with trailing
field values 0 and 0, but not ending in the literal `"-0-0"`. -/
def tokenOneZeroZero : List Char := ['1', '-', '0', '0', '-', '0']

/-- Inputs consumed by one iteration of `_keepalive_task`'s loop:
the value `self._authenticated.is_set()` observed at the `while` test,
whether a cancellation is observed at the `asyncio.sleep` suspension
point or while awaiting the keepalive POST, and the `handle_response`
verdict on the POST's result. -/
structure KIter where
  authSet : Bool
  cancelDuringSleep : Bool
  cancelDuringQuery : Bool
  queryOk : Bool
deriving DecidableEq

/-- How a run of the keepalive task ended: the supplied inputs were
exhausted with the loop still running; the task returned through the
`except asyncio.CancelledError` handler; the `while` condition observed
the authenticated event cleared and the loop fell through (a normal,
non-cancellation return); or the startup `RuntimeError` because
`_authenticated` was `None`. -/
inductive KExit
| running
| cancelledExit
| authClearedExit
| raisedNoEvent
deriving DecidableEq

/-- Result of running the keepalive task: how it ended and whether the
`response` local still holds an open (unclosed) response. -/
structure KResult where
  exit : KExit
  responseOpen : Bool
deriving DecidableEq

/-- Loop of `_keepalive_task` (lines 322-336), iterated over the given
inputs; `opn` is whether the `response` local currently holds an open
response.

Per iteration the source: tests `self._authenticated.is_set()` — if
false the loop falls through and the task returns (nothing is closed on
this path; the previous iteration already closed its response); sleeps
(cancellation here is caught by the handler, which closes the response
and returns); awaits `_async_query(ADT_TIMEOUT_URI, "POST")`
(cancellation while awaiting likewise reaches the handler; the
`response` local still names the previous, already-closed response);
then closes the response on BOTH `handle_response` branches and loops.
There is no suspension point between the assignment of `response` and
its close, so a cancellation can never observe an open response. -/
def keepaliveGo : List KIter → Bool → KResult
| [], opn => ⟨KExit.running, opn⟩
| it :: rest, opn =>
  if it.authSet = false then ⟨KExit.authClearedExit, opn⟩
  else if it.cancelDuringSleep then ⟨KExit.cancelledExit, false⟩
  else if it.cancelDuringQuery then ⟨KExit.cancelledExit, false⟩
  else keepaliveGo rest false

/-- `_keepalive_task` (lines 315-336): raise `RuntimeError` if the
`_authenticated` event is `None` (the task then ends by an exception
that is neither a cancellation nor a normal return), else run the loop
with `response = None`. -/
def keepaliveTask (authEvent : Option Bool) (iters : List KIter) : KResult :=
  match authEvent with
  | none => ⟨KExit.raisedNoEvent, false⟩
  | some _ => keepaliveGo iters false

/-- Result of `async_logout`: post-state, whether each cancelled task
was awaited to completion, whether a `RuntimeError` escaped, and the
trace of the logout request. -/
structure LogoutResult where
  state : PulseState
  awaitedTimeoutTask : Bool
  awaitedSyncTask : Bool
  raised : Bool
  trace : QueryTrace
deriving DecidableEq

/-- Tail of `async_logout` (lines 457-479), applied to the result of
the logout request: on a `RuntimeError` from the executor the rest of
the function is skipped; otherwise close the `ClientSession` if open,
stamp `_last_timeout_reset`, and clear the `_authenticated` event if it
exists. The `awaited*` flags are `false` on every path — see the doc of
`asyncLogout` below for why the cancelled tasks are never awaited. -/
def logoutFinalize (q : QueryResult) (now : Nat) : LogoutResult :=
  if q.raised then
    ⟨q.state, false, false, true, q.trace⟩
  else
    let s3 :=
      if q.state.session && !q.state.sessionClosed then
        { q.state with sessionClosed := true }
      else q.state
    let s4 := { s3 with lastTimeoutReset := now }
    match s4.authenticated with
    | none => ⟨s4, false, false, false, q.trace⟩
    | some _ =>
      ⟨{ s4 with authenticated := some false }, false, false, false, q.trace⟩

/-- `async_logout` (lines 457-479).

Source control flow: for each of `_timeout_task` and `_sync_task`, if
the handle is present, call `task.cancel()` inside
`try ... except asyncio.CancelledError: ...; await task`. In asyncio,
`Task.cancel()` only REQUESTS cancellation and returns a `bool`; it
does not raise `CancelledError` at the call site, so the `except`
branch — the only place the task is awaited — is unreachable and the
cancelled tasks are never awaited (`awaited* = false`). Both handles
are then set to `None`; a logout request is issued through
`_async_query` with its default `force_login=True`; the remainder is
`logoutFinalize`. -/
def asyncLogout (s : PulseState) (now : Nat) (lr : LoginResponse)
    (oc : HttpOutcome) : LogoutResult :=
  logoutFinalize
    (asyncQuery { s with timeoutTask := false, syncTask := false }
      now true HttpMethod.get lr oc) now

/-- State after a successful login followed by one quiet sync tick
(token `"3-1-2"`). -/
def exAfterTick : PulseState :=
  (syncTick exConnected 5
    ⟨false, LoginResponse.okPage, HttpOutcome.ok, ['3', '-', '1', '-', '2'],
      LoginResponse.okPage, true⟩).state

/-- How long a synchronous `login()` call blocks the calling thread. -/
inductive BlockingExtent
| untilLoginComplete
| untilSessionLoopComplete
| noBlock
deriving DecidableEq

/-- `login()` (lines 352-367) with `_pulse_session_thread` (338-345).

First call (`_session_thread is None`): the source constructs a
`Thread` object and invokes `.run()` on it — `Thread.run()` executes
the thread's target function in the CALLING thread (only `.start()`
spawns a new OS thread), so the caller itself executes
`_pulse_session_thread`, i.e.
`self._loop.run_until_complete(self._sync_loop())`, and stays blocked
until `_sync_loop` returns. Later calls (`_session_thread` set): the
source calls `asyncio.run_coroutine_threadsafe(coro, self._loop)` and
discards the returned future — there is no `.result()` call (contrast
`query()` at line 711) — so the caller does not block at all. -/
def loginBlocking (sessionThreadExists : Bool) : BlockingExtent :=
  if sessionThreadExists then BlockingExtent.noBlock
  else BlockingExtent.untilSessionLoopComplete

/-- Completion time of `_sync_loop` (lines 347-350): it awaits
`async_login` and then `asyncio.wait((self._sync_task,
self._timeout_task))`, which returns only once BOTH background tasks
are done — so the loop completes no earlier than the login and no
earlier than either task. -/
def syncLoopCompletesAt (loginDone syncTaskDone timeoutTaskDone : Nat) : Nat :=
  max loginDone (max syncTaskDone timeoutTaskDone)

/-- Word character of the regex `\b` boundary (`\w` = `[A-Za-z0-9_]`
for the ASCII inputs considered here). -/
def isWordChar (c : Char) : Bool := c.isAlphanum || c = '_'

/-- Character class `[A-Za-z0-9._%+-]` (local part of the pattern in
`_init_login_info`). -/
def isLocalChar (c : Char) : Bool :=
  c.isAlphanum || c = '.' || c = '_' || c = '%' || c = '+' || c = '-'

/-- Character class `[A-Za-z0-9.-]` (domain part). -/
def isDomainChar (c : Char) : Bool := c.isAlphanum || c = '.' || c = '-'

/-- Character class `[A-Z|a-z]` of the pattern's last group — as
written in the source it also contains the literal bar. -/
def isTldChar (c : Char) : Bool := c.isAlpha || c = '|'

/-- Word-boundary test `\b` between the last matched character and the
unmatched remainder: a boundary at end of input iff the last character
is a word character, otherwise iff exactly one of the two neighbouring
characters is a word character. -/
def boundaryAfter (prev : Char) (rest : List Char) : Bool :=
  match rest with
  | [] => isWordChar prev
  | n :: _ => !(isWordChar prev == isWordChar n)

/-- Match `[A-Z|a-z]{2,}\b` against `t`: some length-`≥ 2` run of
tld-class characters followed by a word boundary; when `full` is set
the run must also reach the end of `t` (whole-string match). The
existential over the run length captures the regex engine's
backtracking. -/
def tldFrom (t : List Char) (full : Bool) : Bool :=
  (List.range (t.length + 1)).any fun j =>
    decide (2 ≤ j) && (t.take j).all isTldChar &&
    (match (t.take j).getLast? with
     | some p => boundaryAfter p (t.drop j)
     | none => false) &&
    (!full || (t.drop j).isEmpty)

/-- Match `[A-Za-z0-9.-]+\.[A-Z|a-z]{2,}\b` against `rest`: some
nonempty run of domain-class characters, a literal dot, then the tld
part. The existential over the split point captures backtracking (the
dot is itself a domain-class character). -/
def domainFrom (rest : List Char) (full : Bool) : Bool :=
  (List.range rest.length).any fun i =>
    decide (1 ≤ i) && (rest.take i).all isDomainChar &&
    (match rest.drop i with
     | '.' :: t => tldFrom t full
     | _ => false)

/-- The username pattern of `_init_login_info`,
`\b[A-Za-z0-9._%+-]+@[A-Za-z0-9.-]+\.[A-Z|a-z]{2,}\b`, matched at the
start of the string as `re.match` does. The leading `\b` at position 0
holds iff the first character is a word character. The local-part run
is deterministic (maximal) because `@` is not in its class; the domain
and tld splits are existential. With `full := false` this is exactly
the source's test (a match of some PREFIX suffices); with
`full := true` the match must cover the whole string. -/
def emailPattern (cs : List Char) (full : Bool) : Bool :=
  match cs with
  | [] => false
  | c :: _ =>
    isWordChar c &&
    (let localPart := cs.takeWhile isLocalChar
     !localPart.isEmpty &&
     (match cs.drop localPart.length with
      | '@' :: rest => domainFrom rest full
      | _ => false))

/-- The source's acceptance test:
`re.match(pattern, username)` is truthy. -/
def usernameAccepted (u : List Char) : Bool := emailPattern u false

/-- Modelled from the spec: "username (validated as an email-shaped
string)" / the source's own error message "Username must be an email
address" — the username is, in its entirety, one email-shaped string:
the same pattern, required to cover the whole string. Used only to
compare the spec's reading against the source's prefix-only test. -/
def emailShaped (u : List Char) : Bool := emailPattern u true

/-- `_init_login_info` (lines 115-127): `ValueError` for a `None` or
empty username, a username not matching the pattern, a `None` or empty
password, or a `None` or empty fingerprint; otherwise the three fields
are stored. -/
def initLoginInfo (username password fingerprint : Option (List Char)) :
    Except PulseError Creds :=
  match username with
  | none => .error .usernameMandatory
  | some u =>
    if u.isEmpty then .error .usernameMandatory
    else if usernameAccepted u = false then .error .usernameNotEmail
    else
      match password with
      | none => .error .passwordMandatory
      | some p =>
        if p.isEmpty then .error .passwordMandatory
        else
          match fingerprint with
          | none => .error .fingerprintRequired
          | some f =>
            if f.isEmpty then .error .fingerprintRequired
            else .ok ⟨u, p, f⟩

/-- The string `"a@b.com x"`: not an email address (it contains a
space), but its prefix `"a@b.com"` matches the pattern. -/
def exBadUsername : List Char := ['a', '@', 'b', '.', 'c', 'o', 'm', ' ', 'x']

/-- The session always exists after `async_login` (it creates a
`ClientSession` when there is none). -/
theorem asyncLogin_session (s : PulseState) (now : Nat) (r : LoginResponse) :
    (asyncLogin s now r).session = true := by
  unfold asyncLogin
  cases r <;> by_cases h : s.session <;> simp [h] <;> split_ifs <;> rfl

/-- C1 counterexample: from a fresh (unauthenticated) client, a query
with `forceLogin = true` whose triggered login FAILS (error-marker
response) still issues the original HTTP request and returns its
response — the claim demands `None` with the request suppressed. -/
theorem C1_counterexample :
    isConnected (initialState exCreds 0) = false ∧
    (asyncQuery (initialState exCreds 0) 1 true HttpMethod.get
        LoginResponse.errorMarker HttpOutcome.ok).trace.loginAttempts = 1 ∧
    isConnected (asyncQuery (initialState exCreds 0) 1 true HttpMethod.get
        LoginResponse.errorMarker HttpOutcome.ok).state = false ∧
    ¬((asyncQuery (initialState exCreds 0) 1 true HttpMethod.get
        LoginResponse.errorMarker HttpOutcome.ok).response = none ∧
      (asyncQuery (initialState exCreds 0) 1 true HttpMethod.get
        LoginResponse.errorMarker HttpOutcome.ok).trace.requestsIssued = 0) := by
  decide

/-- C1 amended: a query with `forceLogin = true` from an unauthenticated
state performs exactly one full login first, but then issues the
original HTTP request regardless of whether that login succeeded; the
call's result is determined solely by the request's own outcome. -/
theorem C1_force_login_always_issues_request (s : PulseState) (now : Nat)
    (lr : LoginResponse) (oc : HttpOutcome) (h : isConnected s = false) :
    (asyncQuery s now true HttpMethod.get lr oc).trace.loginAttempts = 1 ∧
    (asyncQuery s now true HttpMethod.get lr oc).trace.requestsIssued = 1 ∧
    ((asyncQuery s now true HttpMethod.get lr oc).response = some () ↔
      oc = HttpOutcome.ok) := by
  unfold asyncQuery
  simp only [h, Bool.not_false, Bool.and_true, asyncLogin_session, if_true]
  cases oc <;> simp

/-- Witness for C1 amended at a concrete fresh client with a failing
login and a succeeding main request. -/
theorem C1_force_login_always_issues_request_witness :
    (asyncQuery (initialState exCreds 0) 2 true HttpMethod.get
        LoginResponse.noResponse HttpOutcome.ok).trace.loginAttempts = 1 ∧
    (asyncQuery (initialState exCreds 0) 2 true HttpMethod.get
        LoginResponse.noResponse HttpOutcome.ok).trace.requestsIssued = 1 ∧
    ((asyncQuery (initialState exCreds 0) 2 true HttpMethod.get
        LoginResponse.noResponse HttpOutcome.ok).response = some () ↔
      HttpOutcome.ok = HttpOutcome.ok) :=
  C1_force_login_always_issues_request (initialState exCreds 0) 2
    LoginResponse.noResponse HttpOutcome.ok (by decide)

/-- C8 counterexample: a recoverable status (429) is logged at exactly
the same severity (error, via `LOG.exception`) as a non-recoverable
status (400) — not at a lower severity; `RECOVERABLE_ERRORS` is defined
but never consulted by the executor. -/
theorem C8_counterexample :
    (asyncQuery exConnected 2 true HttpMethod.get LoginResponse.okPage
        (HttpOutcome.httpError 429)).trace.logged = [(429, Severity.error)] ∧
    (asyncQuery exConnected 2 true HttpMethod.get LoginResponse.okPage
        (HttpOutcome.httpError 400)).trace.logged = [(400, Severity.error)] ∧
    429 ∈ RECOVERABLE_ERRORS ∧ ¬(400 ∈ RECOVERABLE_ERRORS) ∧
    ¬(Severity.toNat Severity.error < Severity.toNat Severity.error) := by
  decide

/-- C8 amended: every HTTP error status — inside the recoverable set or
not — is logged at the same (error) severity, and the executor returns
no response after issuing the request exactly once (no retry). -/
theorem C8_http_errors_logged_uniformly (s : PulseState) (now : Nat)
    (code : Nat) (h : s.session = true) :
    (asyncQuery s now false HttpMethod.get LoginResponse.okPage
        (HttpOutcome.httpError code)).response = none ∧
    (asyncQuery s now false HttpMethod.get LoginResponse.okPage
        (HttpOutcome.httpError code)).trace.requestsIssued = 1 ∧
    (asyncQuery s now false HttpMethod.get LoginResponse.okPage
        (HttpOutcome.httpError code)).trace.logged =
      [(code, Severity.error)] := by
  unfold asyncQuery
  simp [h]

/-- Witness for C8 amended at the post-login state and status 503. -/
theorem C8_http_errors_logged_uniformly_witness :
    (asyncQuery exConnected 2 false HttpMethod.get LoginResponse.okPage
        (HttpOutcome.httpError 503)).response = none ∧
    (asyncQuery exConnected 2 false HttpMethod.get LoginResponse.okPage
        (HttpOutcome.httpError 503)).trace.requestsIssued = 1 ∧
    (asyncQuery exConnected 2 false HttpMethod.get LoginResponse.okPage
        (HttpOutcome.httpError 503)).trace.logged =
      [(503, Severity.error)] :=
  C8_http_errors_logged_uniformly exConnected 2 503 (by decide)

/-- On an authenticated state with a live session, a `force_login` GET
query performs no login and returns the response of its single
successful request unchanged. -/
theorem asyncQuery_connected_ok (s : PulseState) (now : Nat)
    (lr : LoginResponse) (hc : isConnected s = true) (hs : s.session = true) :
    asyncQuery s now true HttpMethod.get lr HttpOutcome.ok =
      ⟨s, some (), false, ⟨0, 1, []⟩⟩ := by
  unfold asyncQuery
  simp [hc, hs]

/-- C3 counterexample: the token `"1-00-0"` matches the
`<int>-<int>-<int>` shape with both trailing fields zero, yet the tick
takes the no-update branch — it performs no refresh and does not set the
updates-pending signal (it only advances the sync timestamp) — because
the source tests the literal suffix `"-0-0"`, not the field values. -/
theorem C3_counterexample :
    parseSyncToken tokenOneZeroZero = some (1, 0, 0) ∧
    (syncTick exConnected 5
      ⟨false, LoginResponse.okPage, HttpOutcome.ok, tokenOneZeroZero,
        LoginResponse.okPage, true⟩).trace.refreshes = 0 ∧
    ¬((syncTick exConnected 5
      ⟨false, LoginResponse.okPage, HttpOutcome.ok, tokenOneZeroZero,
        LoginResponse.okPage, true⟩).state.updatesExist = some true) ∧
    (syncTick exConnected 5
      ⟨false, LoginResponse.okPage, HttpOutcome.ok, tokenOneZeroZero,
        LoginResponse.okPage, true⟩).state.syncTimestamp = 5 := by
  decide

/-- C3 amended: on a tick whose response body matches the token shape,
the update branch is selected by the LITERAL suffix test
`text.endswith("-0-0")` (not by the numeric values of the trailing
fields): with the suffix, the tick stamps the sync timestamp, sets the
updates-pending signal and performs exactly one content refresh before
the next sleep; without it, the tick only stamps the sync timestamp —
no refresh, signal untouched — and in both cases the loop continues
with no re-login. -/
theorem C3_token_tick_behavior (s : PulseState) (now : Nat) (o : TickOracle)
    (u : Bool) (hc : isConnected s = true) (hs : s.session = true)
    (hu : s.updatesExist = some u) (hcan : o.cancelled = false)
    (hoc : o.outcome = HttpOutcome.ok)
    (hshape : digitPrefixShape o.text = true) :
    (endsWithDash00 o.text = true →
      (syncTick s now o).state.syncTimestamp = now ∧
      (syncTick s now o).state.updatesExist = some true ∧
      (syncTick s now o).trace.refreshes = 1 ∧
      (syncTick s now o).trace.loginAttempts = 0 ∧
      (syncTick s now o).outcome = TickOutcome.continued) ∧
    (endsWithDash00 o.text = false →
      (syncTick s now o).state.syncTimestamp = now ∧
      (syncTick s now o).state.updatesExist = some u ∧
      (syncTick s now o).trace.refreshes = 0 ∧
      (syncTick s now o).trace.loginAttempts = 0 ∧
      (syncTick s now o).outcome = TickOutcome.continued) := by
  have hq : asyncQuery s now true HttpMethod.get o.loginAtQuery o.outcome =
      ⟨s, some (), false, ⟨0, 1, []⟩⟩ := by
    rw [hoc]
    exact asyncQuery_connected_ok s now o.loginAtQuery hc hs
  constructor <;> intro he <;> simp [syncTick, hcan, hq, hshape, he, hu]

/-- Witness for C3 amended: token `"0-0-0"` on the post-login state
takes the refresh branch. -/
theorem C3_token_tick_behavior_witness :
    (endsWithDash00 ['0', '-', '0', '-', '0'] = true →
      (syncTick exConnected 5
        ⟨false, LoginResponse.okPage, HttpOutcome.ok,
          ['0', '-', '0', '-', '0'], LoginResponse.okPage,
          true⟩).state.syncTimestamp = 5 ∧
      (syncTick exConnected 5
        ⟨false, LoginResponse.okPage, HttpOutcome.ok,
          ['0', '-', '0', '-', '0'], LoginResponse.okPage,
          true⟩).state.updatesExist = some true ∧
      (syncTick exConnected 5
        ⟨false, LoginResponse.okPage, HttpOutcome.ok,
          ['0', '-', '0', '-', '0'], LoginResponse.okPage,
          true⟩).trace.refreshes = 1 ∧
      (syncTick exConnected 5
        ⟨false, LoginResponse.okPage, HttpOutcome.ok,
          ['0', '-', '0', '-', '0'], LoginResponse.okPage,
          true⟩).trace.loginAttempts = 0 ∧
      (syncTick exConnected 5
        ⟨false, LoginResponse.okPage, HttpOutcome.ok,
          ['0', '-', '0', '-', '0'], LoginResponse.okPage,
          true⟩).outcome = TickOutcome.continued) ∧
    (endsWithDash00 ['0', '-', '0', '-', '0'] = false →
      (syncTick exConnected 5
        ⟨false, LoginResponse.okPage, HttpOutcome.ok,
          ['0', '-', '0', '-', '0'], LoginResponse.okPage,
          true⟩).state.syncTimestamp = 5 ∧
      (syncTick exConnected 5
        ⟨false, LoginResponse.okPage, HttpOutcome.ok,
          ['0', '-', '0', '-', '0'], LoginResponse.okPage,
          true⟩).state.updatesExist = some false ∧
      (syncTick exConnected 5
        ⟨false, LoginResponse.okPage, HttpOutcome.ok,
          ['0', '-', '0', '-', '0'], LoginResponse.okPage,
          true⟩).trace.refreshes = 0 ∧
      (syncTick exConnected 5
        ⟨false, LoginResponse.okPage, HttpOutcome.ok,
          ['0', '-', '0', '-', '0'], LoginResponse.okPage,
          true⟩).trace.loginAttempts = 0 ∧
      (syncTick exConnected 5
        ⟨false, LoginResponse.okPage, HttpOutcome.ok,
          ['0', '-', '0', '-', '0'], LoginResponse.okPage,
          true⟩).outcome = TickOutcome.continued) :=
  C3_token_tick_behavior exConnected 5
    ⟨false, LoginResponse.okPage, HttpOutcome.ok, ['0', '-', '0', '-', '0'],
      LoginResponse.okPage, true⟩ false (by decide) (by decide) (by decide)
    (by decide) (by decide) (by decide)

/-- C4: on an authenticated tick whose successful response body does not
match the `<int>-<int>-<int>` shape, the tick performs exactly one full
re-login attempt, no content refresh, and continues the loop. -/
theorem C4_shape_mismatch_forces_relogin (s : PulseState) (now : Nat)
    (o : TickOracle) (hc : isConnected s = true) (hs : s.session = true)
    (hcan : o.cancelled = false) (hoc : o.outcome = HttpOutcome.ok)
    (hshape : digitPrefixShape o.text = false) :
    (syncTick s now o).trace.loginAttempts = 1 ∧
    (syncTick s now o).trace.refreshes = 0 ∧
    (syncTick s now o).outcome = TickOutcome.continued := by
  have hq : asyncQuery s now true HttpMethod.get o.loginAtQuery o.outcome =
      ⟨s, some (), false, ⟨0, 1, []⟩⟩ := by
    rw [hoc]
    exact asyncQuery_connected_ok s now o.loginAtQuery hc hs
  simp [syncTick, hcan, hq, hshape]

/-- Witness for C4: the body `"garbage"` on the post-login state. -/
theorem C4_shape_mismatch_forces_relogin_witness :
    (syncTick exConnected 5
      ⟨false, LoginResponse.okPage, HttpOutcome.ok,
        ['g', 'a', 'r', 'b', 'a', 'g', 'e'], LoginResponse.okPage,
        true⟩).trace.loginAttempts = 1 ∧
    (syncTick exConnected 5
      ⟨false, LoginResponse.okPage, HttpOutcome.ok,
        ['g', 'a', 'r', 'b', 'a', 'g', 'e'], LoginResponse.okPage,
        true⟩).trace.refreshes = 0 ∧
    (syncTick exConnected 5
      ⟨false, LoginResponse.okPage, HttpOutcome.ok,
        ['g', 'a', 'r', 'b', 'a', 'g', 'e'], LoginResponse.okPage,
        true⟩).outcome = TickOutcome.continued :=
  C4_shape_mismatch_forces_relogin exConnected 5
    ⟨false, LoginResponse.okPage, HttpOutcome.ok,
      ['g', 'a', 'r', 'b', 'a', 'g', 'e'], LoginResponse.okPage, true⟩
    (by decide) (by decide) (by decide) (by decide) (by decide)

/-- The keepalive loop never leaves a response open. -/
theorem keepaliveGo_closed (iters : List KIter) :
    (keepaliveGo iters false).responseOpen = false := by
  induction iters with
  | nil => rfl
  | cons it rest ih =>
    unfold keepaliveGo
    split_ifs <;> simp [ih]

/-- C7 counterexample: with the authenticated event existing but
cleared, and no cancellation anywhere in the inputs, the keepalive task
returns — by falling out of its `while self._authenticated.is_set()`
loop, not through the cancellation handler. Cancellation is therefore
not the only way the task returns. -/
theorem C7_counterexample :
    keepaliveTask (some false) [⟨false, false, false, true⟩] =
      ⟨KExit.authClearedExit, false⟩ ∧
    KExit.authClearedExit ≠ KExit.cancelledExit := by
  decide

/-- C7 amended: the keepalive task returns through the cancellation
handler or by observing the authenticated signal cleared at the top of
an iteration (or fails at startup when the signal object is missing);
while the signal stays set and no cancellation is delivered the loop
never exits; and no exit can leave a response handle open (every
response is closed before the next suspension point, and the
cancellation handler closes it again). -/
theorem C7_keepalive_exit_paths (iters : List KIter)
    (h : ∀ it ∈ iters, it.authSet = true ∧ it.cancelDuringSleep = false ∧
      it.cancelDuringQuery = false) :
    keepaliveTask (some true) iters = ⟨KExit.running, false⟩ ∧
    (keepaliveTask (some true) iters).exit ≠ KExit.cancelledExit ∧
    (∀ (ae : Option Bool) (js : List KIter),
      (keepaliveTask ae js).responseOpen = false) := by
  have hrun : keepaliveGo iters false = ⟨KExit.running, false⟩ := by
    induction iters with
    | nil => rfl
    | cons it rest ih =>
      obtain ⟨ha, hc1, hc2⟩ := h it (List.mem_cons_self it rest)
      unfold keepaliveGo
      simp only [ha, hc1, hc2]
      exact ih fun j hj => h j (List.mem_cons_of_mem it hj)
  refine ⟨hrun, by simp [keepaliveTask, hrun], ?_⟩
  intro ae js
  match ae with
  | none => rfl
  | some b => exact keepaliveGo_closed js

/-- Witness for C7 amended: one quiet authenticated iteration. -/
theorem C7_keepalive_exit_paths_witness :
    keepaliveTask (some true) [⟨true, false, false, true⟩] =
      ⟨KExit.running, false⟩ ∧
    (keepaliveTask (some true) [⟨true, false, false, true⟩]).exit ≠
      KExit.cancelledExit ∧
    (∀ (ae : Option Bool) (js : List KIter),
      (keepaliveTask ae js).responseOpen = false) :=
  C7_keepalive_exit_paths [⟨true, false, false, true⟩] (by decide)

/-- C5: after login → tick → logout the final state does have the
authenticated signal cleared and both task handles `None`, but the
cancelled tasks are NEVER awaited: `Task.cancel()` returns a `bool` and
does not raise `CancelledError`, so the `await` inside each
`except asyncio.CancelledError` block is dead code — on every possible
logout, not just this run. -/
theorem C5_logout_never_awaits_cancelled_tasks :
    exAfterTick.syncTask = true ∧ exAfterTick.timeoutTask = true ∧
    (asyncLogout exAfterTick 9 LoginResponse.okPage
      HttpOutcome.ok).state.authenticated = some false ∧
    (asyncLogout exAfterTick 9 LoginResponse.okPage
      HttpOutcome.ok).state.syncTask = false ∧
    (asyncLogout exAfterTick 9 LoginResponse.okPage
      HttpOutcome.ok).state.timeoutTask = false ∧
    (∀ (s : PulseState) (now : Nat) (lr : LoginResponse) (oc : HttpOutcome),
      (asyncLogout s now lr oc).awaitedTimeoutTask = false ∧
      (asyncLogout s now lr oc).awaitedSyncTask = false) := by
  have hfin : ∀ (q : QueryResult) (t : Nat),
      (logoutFinalize q t).awaitedTimeoutTask = false ∧
      (logoutFinalize q t).awaitedSyncTask = false := by
    intro q t
    unfold logoutFinalize
    by_cases hr : q.raised = true
    · simp [hr]
    · by_cases hcl : (q.state.session && !q.state.sessionClosed) = true <;>
        cases hau : q.state.authenticated <;> simp [hr, hcl, hau]
  refine ⟨by decide, by decide, by decide, by decide, by decide, ?_⟩
  intro s now lr oc
  unfold asyncLogout
  exact hfin _ now

/-- C6: the synchronous `login()` never blocks "exactly until the login
coroutine has completed". The first call runs the whole session loop in
the calling thread (`Thread.run()` executes the target inline) and so
blocks until `_sync_loop` — login AND both background tasks — has
finished, which is at least as late as login completion (and strictly
later whenever a task outlives the login); later calls discard the
future returned by `run_coroutine_threadsafe` and do not block at
all. -/
theorem C6_login_blocking_mismatch :
    loginBlocking false = BlockingExtent.untilSessionLoopComplete ∧
    loginBlocking true = BlockingExtent.noBlock ∧
    BlockingExtent.untilSessionLoopComplete ≠
      BlockingExtent.untilLoginComplete ∧
    BlockingExtent.noBlock ≠ BlockingExtent.untilLoginComplete ∧
    (∀ l a b : Nat, l ≤ syncLoopCompletesAt l a b) ∧
    syncLoopCompletesAt 1 7 4 = 7 := by
  refine ⟨rfl, rfl, by decide, by decide, ?_, by decide⟩
  intro l a b
  exact Nat.le_max_left _ _

/-- The credentials are never reassigned by `async_login`. -/
theorem asyncLogin_creds (s : PulseState) (now : Nat) (r : LoginResponse) :
    (asyncLogin s now r).creds = s.creds := by
  unfold asyncLogin
  cases r <;> by_cases h : s.session <;> simp [h] <;> split_ifs <;> rfl

/-- The credentials are never reassigned by `_async_query`. -/
theorem asyncQuery_creds (s : PulseState) (now : Nat) (fl : Bool)
    (m : HttpMethod) (lr : LoginResponse) (oc : HttpOutcome) :
    (asyncQuery s now fl m lr oc).state.creds = s.creds := by
  unfold asyncQuery
  by_cases hd : (fl && !isConnected s) = true <;>
    cases m <;> cases oc <;>
    simp [hd, asyncLogin_creds] <;> split_ifs <;>
    simp [asyncLogin_creds]

/-- The credentials are never reassigned by a sync-check iteration. -/
theorem syncTick_creds (s : PulseState) (now : Nat) (o : TickOracle) :
    (syncTick s now o).state.creds = s.creds := by
  unfold syncTick
  by_cases hcan : o.cancelled = true
  · simp [hcan]
  · simp only [hcan, Bool.false_eq_true, if_false]
    have hq := asyncQuery_creds s now true HttpMethod.get o.loginAtQuery o.outcome
    set q := asyncQuery s now true HttpMethod.get o.loginAtQuery o.outcome
    by_cases hr : q.raised = true
    · simp [hr, hq]
    · simp only [hr, Bool.false_eq_true, if_false]
      cases hresp : q.response with
      | none => simp [hq]
      | some u =>
        by_cases hsh : digitPrefixShape o.text = false
        · simp [hsh, asyncLogin_creds, hq]
        · simp only [hsh, if_false]
          by_cases hend : endsWithDash00 o.text
          · cases hup : q.state.updatesExist <;> simp [hend, hup, hq]
          · simp [hend, hq]

/-- The post-request tail of `async_logout` never touches the
credential fields. -/
theorem logoutFinalize_creds (q : QueryResult) (now : Nat) :
    (logoutFinalize q now).state.creds = q.state.creds := by
  unfold logoutFinalize
  by_cases hr : q.raised = true
  · simp [hr]
  · by_cases hcl : (q.state.session && !q.state.sessionClosed) = true <;>
      cases hau : q.state.authenticated <;> simp [hr, hcl, hau]

/-- The credentials are never reassigned by `async_logout`. -/
theorem asyncLogout_creds (s : PulseState) (now : Nat) (lr : LoginResponse)
    (oc : HttpOutcome) :
    (asyncLogout s now lr oc).state.creds = s.creds := by
  unfold asyncLogout
  rw [logoutFinalize_creds]
  exact asyncQuery_creds _ _ _ _ _ _

/-- C9 counterexample: the username `"a@b.com x"` is not an
email-shaped string (the whole-string reading of the pattern rejects
it), yet construction succeeds and stores it, because `re.match` only
anchors the pattern at the start and the prefix `"a@b.com"` matches —
the claim demands a `ValueError` here. -/
theorem C9_counterexample :
    emailShaped exBadUsername = false ∧
    usernameAccepted exBadUsername = true ∧
    initLoginInfo (some exBadUsername) (some ['p']) (some ['f']) =
      Except.ok ⟨exBadUsername, ['p'], ['f']⟩ :=
  ⟨rfl, rfl, rfl⟩

/-- C9 amended: construction fails with `ValueError` exactly for a
missing/empty username, password or fingerprint, or a username without
an email-shaped PREFIX (the pattern is only anchored at the start of
the string); for all other inputs the three credential fields are
stored as given and no modelled operation (`async_login`,
`_async_query`, sync-check tick, `async_logout`, `updates_exist`) ever
mutates them. -/
theorem C9_validation_and_immutability (u p f : List Char)
    (hu : usernameAccepted u = true) (hp : p.isEmpty = false)
    (hf : f.isEmpty = false) :
    initLoginInfo (some u) (some p) (some f) = Except.ok ⟨u, p, f⟩ ∧
    (∀ pw fp, initLoginInfo none pw fp =
      Except.error PulseError.usernameMandatory) ∧
    (∀ pw fp, initLoginInfo (some []) pw fp =
      Except.error PulseError.usernameMandatory) ∧
    (∀ (v : List Char) pw fp, v.isEmpty = false →
      usernameAccepted v = false →
      initLoginInfo (some v) pw fp =
        Except.error PulseError.usernameNotEmail) ∧
    initLoginInfo (some u) none (some f) =
      Except.error PulseError.passwordMandatory ∧
    initLoginInfo (some u) (some p) none =
      Except.error PulseError.fingerprintRequired ∧
    (∀ (s : PulseState) (now : Nat) (r : LoginResponse),
      (asyncLogin s now r).creds = s.creds) ∧
    (∀ (s : PulseState) (now : Nat) (fl : Bool) (m : HttpMethod)
      (lr : LoginResponse) (oc : HttpOutcome),
      (asyncQuery s now fl m lr oc).state.creds = s.creds) ∧
    (∀ (s : PulseState) (now : Nat) (o : TickOracle),
      (syncTick s now o).state.creds = s.creds) ∧
    (∀ (s : PulseState) (now : Nat) (lr : LoginResponse) (oc : HttpOutcome),
      (asyncLogout s now lr oc).state.creds = s.creds) ∧
    (∀ (s : PulseState), (updatesExistProp s).2.creds = s.creds) := by
  have hne : u.isEmpty = false := by
    cases u with
    | nil => exact absurd hu (by decide)
    | cons c cs => rfl
  refine ⟨by simp [initLoginInfo, hne, hu, hp, hf], fun pw fp => rfl,
    fun pw fp => by simp [initLoginInfo], ?_,
    by simp [initLoginInfo, hne, hu],
    by simp [initLoginInfo, hne, hu, hp],
    asyncLogin_creds, asyncQuery_creds, syncTick_creds, asyncLogout_creds, ?_⟩
  · intro v pw fp hv hvn
    simp [initLoginInfo, hv, hvn]
  · intro s
    unfold updatesExistProp
    cases s.updatesExist with
    | none => rfl
    | some b => by_cases hb : b = true <;> simp [hb]

/-- Witness for C9 amended at the concrete valid credentials
`"a@b.co"` / `"pw"` / `"fp"`. -/
theorem C9_validation_and_immutability_witness :
    initLoginInfo (some exCreds.username) (some exCreds.password)
      (some exCreds.fingerprint) =
      Except.ok ⟨exCreds.username, exCreds.password, exCreds.fingerprint⟩ ∧
    (∀ pw fp, initLoginInfo none pw fp =
      Except.error PulseError.usernameMandatory) ∧
    (∀ pw fp, initLoginInfo (some []) pw fp =
      Except.error PulseError.usernameMandatory) ∧
    (∀ (v : List Char) pw fp, v.isEmpty = false →
      usernameAccepted v = false →
      initLoginInfo (some v) pw fp =
        Except.error PulseError.usernameNotEmail) ∧
    initLoginInfo (some exCreds.username) none (some exCreds.fingerprint) =
      Except.error PulseError.passwordMandatory ∧
    initLoginInfo (some exCreds.username) (some exCreds.password) none =
      Except.error PulseError.fingerprintRequired ∧
    (∀ (s : PulseState) (now : Nat) (r : LoginResponse),
      (asyncLogin s now r).creds = s.creds) ∧
    (∀ (s : PulseState) (now : Nat) (fl : Bool) (m : HttpMethod)
      (lr : LoginResponse) (oc : HttpOutcome),
      (asyncQuery s now fl m lr oc).state.creds = s.creds) ∧
    (∀ (s : PulseState) (now : Nat) (o : TickOracle),
      (syncTick s now o).state.creds = s.creds) ∧
    (∀ (s : PulseState) (now : Nat) (lr : LoginResponse) (oc : HttpOutcome),
      (asyncLogout s now lr oc).state.creds = s.creds) ∧
    (∀ (s : PulseState), (updatesExistProp s).2.creds = s.creds) :=
  C9_validation_and_immutability exCreds.username exCreds.password
    exCreds.fingerprint (by decide) (by decide) (by decide)

/-- C2: a login attempt whose response body contains the error marker
(`warnMsgContents`) never sets the authenticated signal, returns
normally (`asyncLogin` is total), and leaves `is_connected` false —
for every starting state, hence regardless of the HTTP status of the
response. -/
theorem C2_error_marker_never_authenticates (s : PulseState) (now : Nat) :
    (asyncLogin s now LoginResponse.errorMarker).authenticated = some false ∧
    isConnected (asyncLogin s now LoginResponse.errorMarker) = false := by
  unfold asyncLogin isConnected
  by_cases h : s.session <;> simp [h]

/-- C10: on a client whose `_updates_exist` event is still `None`
(login never performed), the `updates_exist` property returns `False`
without raising and without changing state, while `wait_for_update`
raises `RuntimeError` instead of blocking. -/
theorem C10_uninitialized_updates_behavior (s : PulseState)
    (h : s.updatesExist = none) :
    updatesExistProp s = (false, s) ∧
    waitForUpdate s = Except.error PulseError.updateEventMissing := by
  constructor <;> simp [updatesExistProp, waitForUpdate, h]

/-- Witness for C10 at a concrete freshly-constructed client. -/
theorem C10_uninitialized_updates_behavior_witness :
    updatesExistProp (initialState ⟨['u'], ['p'], ['f']⟩ 3) =
      (false, initialState ⟨['u'], ['p'], ['f']⟩ 3) ∧
    waitForUpdate (initialState ⟨['u'], ['p'], ['f']⟩ 3) =
      Except.error PulseError.updateEventMissing :=
  C10_uninitialized_updates_behavior (initialState ⟨['u'], ['p'], ['f']⟩ 3) rfl

end PyAdtPulse
